import Mathlib

/-!
Verification of the analytics core of the ad-account audit system.

The Python source is shallowly embedded: pandas DataFrames become lists of
records, float NaN becomes `Option.none` (a missing value), currency and
metric values are exact rationals, and calls into external statistics
libraries (scipy p-values) are modelled as explicit inputs.  Each embedded
definition is named after the source function it translates.
-/

/-- Division as performed on pandas float columns followed by
`replace([inf, -inf], nan)`: a zero denominator produces inf or NaN, which
the replacement step turns into NaN (modelled as `none`). -/
def optDiv (a b : ℚ) : Option ℚ :=
  if b = 0 then none else some (a / b)

/-- Mean of a pandas float Series with the default `skipna=True`: NaN entries
are ignored; the mean of an all-NaN series is NaN (modelled as `none`). -/
def optMean (l : List (Option ℚ)) : Option ℚ :=
  let vs := l.filterMap id
  if vs.isEmpty then none else some (vs.sum / (vs.length : ℚ))

/- ## Budget Efficiency Scorer: BudgetOptimizer._calculate_efficiency_score
   (src/processing/budget_optimizer.py lines 832-885) -/

/-- Peer-relative index values for one entity, as assembled by
`_analyze_campaigns` / `_analyze_adsets` / `_analyze_ads`.  A metric that is
missing from the dict or NaN is `none`; the code additionally requires the
value to be positive before using it. -/
structure EffIndices where
  ctr_index : Option ℚ
  cpm_index : Option ℚ
  cpc_index : Option ℚ
  conversion_rate_index : Option ℚ
  cpa_index : Option ℚ
deriving DecidableEq

/-- One iteration of the weighted-component loop in
`_calculate_efficiency_score`: skip absent/NaN/non-positive indices, cap at
200, rescale non-CPA indices by `x/2 + 50`, then add `(ms - 50) * weight` to
the running score and accumulate the weight. -/
def effStep (acc : ℚ × ℚ) (idx : Option ℚ) (weight : ℚ) (isCpaIndex : Bool) : ℚ × ℚ :=
  match idx with
  | none => acc
  | some v =>
    if v > 0 then
      let capped := if v > 200 then 200 else v
      let ms := if isCpaIndex then capped else capped / 2 + 50
      (acc.1 + (ms - 50) * weight, acc.2 + weight)
    else acc

/-- BudgetOptimizer._calculate_efficiency_score: base score 50, weighted
components in dict order (ctr 0.15, cpm 0.15, cpc 0.2, conversion_rate 0.25,
cpa 0.25), a blend back toward 50 when the accumulated weight is below 0.5,
and a final clamp to [0, 100]. -/
def calculate_efficiency_score (m : EffIndices) : ℚ :=
  let a0 : ℚ × ℚ := (50, 0)
  let a1 := effStep a0 m.ctr_index (15/100) false
  let a2 := effStep a1 m.cpm_index (15/100) false
  let a3 := effStep a2 m.cpc_index (2/10) false
  let a4 := effStep a3 m.conversion_rate_index (25/100) false
  let a5 := effStep a4 m.cpa_index (25/100) true
  let score := if a5.2 < 1/2 then a5.1 * (a5.2 * 2) + 50 * (1 - a5.2 * 2) else a5.1
  max 0 (min 100 score)

/-- C1: the claim says an entity whose available peer-relative indices are all
exactly 100 (peer-group average everywhere) receives a composite efficiency
score of approximately 50.  The code instead returns 100 at that input: the
rescaling `x/2 + 50` sends the baseline index 100 to a metric score of 100,
so each metric contributes `(100 - 50) * weight` instead of 0, and the CPA
index is added unrescaled, pinning an exactly-average entity at the clamped
maximum score of 100. -/
theorem C1_efficiency_score_all_average_is_100 :
    calculate_efficiency_score ⟨some 100, some 100, some 100, some 100, some 100⟩ = 100 := by
  norm_num [calculate_efficiency_score, effStep]

/- ## Metric Derivation: calculate_performance_metrics
   (src/processing/metrics.py lines 5-80) -/

/-- Ad platform tag used by `calculate_performance_metrics` to pick the
conversion column. -/
inductive Platform
  | facebook
  | instagram
  | tiktok
  | other
deriving DecidableEq

/-- Input DataFrame for `calculate_performance_metrics`: each optional field
is a column (present with its list of values, or absent). -/
structure MetricsDF where
  spend : Option (List ℚ)
  impressions : Option (List ℚ)
  clicks : Option (List ℚ)
  purchases : Option (List ℚ)
  conversions : Option (List ℚ)
  revenue : Option (List ℚ)
  conversion_value : Option (List ℚ)
deriving DecidableEq

/-- Column sum with the source's fallback to 0 for an absent column. -/
def colSumD (c : Option (List ℚ)) : ℚ :=
  match c with
  | none => 0
  | some l => l.sum

/-- Output dict of `calculate_performance_metrics`.  Every metric in the
source is assigned a plain float (the zero-denominator branches assign the
number 0), so the fields are `ℚ`, never NaN. -/
structure PerfMetrics where
  spend : ℚ
  impressions : ℚ
  clicks : ℚ
  conversions : ℚ
  revenue : ℚ
  ctr : ℚ
  cpm : ℚ
  cpc : ℚ
  conversion_rate : ℚ
  cpa : ℚ
  roas : ℚ
deriving DecidableEq

/-- calculate_performance_metrics (metrics.py): sums the core columns, picks
the platform-specific conversion column, estimates revenue at an average
order value of 50 when no revenue column exists, and derives ctr, cpm, cpc,
conversion_rate, cpa and roas with explicit zero-denominator branches that
assign 0 (segment sub-metrics are out of scope here). -/
def calculate_performance_metrics (df : MetricsDF) (platform : Platform) : PerfMetrics :=
  let spend := colSumD df.spend
  let impressions := colSumD df.impressions
  let clicks := colSumD df.clicks
  let conversions :=
    match platform with
    | .facebook => colSumD df.purchases
    | .instagram => colSumD df.purchases
    | .tiktok => colSumD df.conversions
    | .other => 0
  let revenue :=
    match df.revenue with
    | some l => l.sum
    | none =>
      match df.conversion_value with
      | some l => l.sum
      | none => conversions * 50
  let ctr := if impressions > 0 then clicks / impressions * 100 else 0
  let cpm := if impressions > 0 then spend / impressions * 1000 else 0
  let cpc := if clicks > 0 then spend / clicks else 0
  let conversion_rate :=
    if clicks > 0 then (if conversions > 0 then conversions / clicks * 100 else 0) else 0
  let cpa := if conversions > 0 then spend / conversions else 0
  let roas := if spend > 0 ∧ revenue > 0 then revenue / spend else 0
  { spend := spend, impressions := impressions, clicks := clicks,
    conversions := conversions, revenue := revenue, ctr := ctr, cpm := cpm,
    cpc := cpc, conversion_rate := conversion_rate, cpa := cpa, roas := roas }

/- ## Budget Optimizer data preparation: BudgetOptimizer._prepare_data
   (src/processing/budget_optimizer.py lines 93-174, campaign level) -/

/-- One insights row as consumed by `_prepare_data` after the numeric
coercion step (`to_numeric(...).fillna(0)`), with the conversions column
present (either natively or copied from purchases). -/
structure InsightRowB where
  campaign_id : ℕ
  impressions : ℚ
  clicks : ℚ
  spend : ℚ
  conversions : ℚ
deriving DecidableEq

/-- One row of the campaign-level aggregate produced by `_prepare_data`:
summed counts plus derived metrics after `replace([inf, -inf], nan)`, so a
zero-denominator metric is NaN (`none`). -/
structure CampaignAgg where
  campaign_id : ℕ
  impressions : ℚ
  clicks : ℚ
  spend : ℚ
  conversions : ℚ
  ctr : Option ℚ
  cpm : Option ℚ
  cpc : Option ℚ
  conversion_rate : Option ℚ
  cpa : Option ℚ
deriving DecidableEq

/-- Campaign ids in order of first appearance (one group per distinct id). -/
def campaignIds (insights : List InsightRowB) : List ℕ :=
  (insights.map (·.campaign_id)).dedup

/-- Aggregate of `insights.groupby('campaign_id').agg(sum)` for one campaign
id followed by the derived-metric block of `_prepare_data` (lines 150-158). -/
def campaignAggFor (insights : List InsightRowB) (cid : ℕ) : CampaignAgg :=
  let grp := insights.filter (fun r => r.campaign_id = cid)
  let impressions := (grp.map (·.impressions)).sum
  let clicks := (grp.map (·.clicks)).sum
  let spend := (grp.map (·.spend)).sum
  let conversions := (grp.map (·.conversions)).sum
  { campaign_id := cid, impressions := impressions, clicks := clicks,
    spend := spend, conversions := conversions,
    ctr := (optDiv clicks impressions).map (· * 100),
    cpm := (optDiv spend impressions).map (· * 1000),
    cpc := optDiv spend clicks,
    conversion_rate := (optDiv conversions clicks).map (· * 100),
    cpa := optDiv spend conversions }

/-- Campaign-level table built by `_prepare_data`: one aggregated row per
distinct campaign id in the insights data. -/
def prepareCampaignInsights (insights : List InsightRowB) : List CampaignAgg :=
  (campaignIds insights).map (campaignAggFor insights)

/-- Average CPA across prepared campaigns as computed by
`_analyze_campaigns` (`campaigns_df['cpa'].mean()`, pandas default skipna). -/
def avgCampaignCpa (campaigns : List CampaignAgg) : Option ℚ :=
  optMean (campaigns.map (·.cpa))

/-- C2 counterexample: the claim asserts that Metric Derivation yields
cpa = NaN (not 0) for every aggregate with conversions = 0, citing
calculate_performance_metrics.  At a concrete TikTok input with spend 100
and a conversions column summing to 0, calculate_performance_metrics
assigns the number 0 to cpa (metrics.py lines 66-69), not NaN. -/
theorem C2_counterexample_perf_metrics_cpa_zero :
    (calculate_performance_metrics
      { spend := some [100], impressions := some [1000], clicks := some [10],
        purchases := none, conversions := some [0, 0], revenue := none,
        conversion_value := none } Platform.tiktok).cpa = 0 := by
  norm_num [calculate_performance_metrics, colSumD]

/-- C2 (amended): in the Budget Optimizer's prepared campaign aggregates
(`_prepare_data`), any campaign whose summed conversions are 0 gets
cpa = NaN (`none`, via division then `replace([inf,-inf], nan)`), and NaN
cpa values are excluded from the downstream mean (`campaigns_df['cpa'].mean()`
skips NaN rather than treating them as 0); `calculate_performance_metrics`
in metrics.py, by contrast, assigns cpa = 0 when conversions = 0. -/
theorem C2_prepared_cpa_nan_and_mean_excludes_nan
    (insights : List InsightRowB) (a : CampaignAgg)
    (ha : a ∈ prepareCampaignInsights insights) :
    (a.conversions = 0 → a.cpa = none) ∧
    (∀ l : List (Option ℚ), optMean (none :: l) = optMean l) := by
  constructor
  · intro hconv
    rcases List.mem_map.mp ha with ⟨cid, _, rfl⟩
    simp only [campaignAggFor] at hconv ⊢
    simp [optDiv, hconv]
  · intro l
    simp [optMean, List.filterMap_cons]

/-- Concrete zero-conversion insights row used to witness the amended C2. -/
def c2row : InsightRowB :=
  { campaign_id := 7, impressions := 1000, clicks := 10, spend := 100, conversions := 0 }

/-- C2 witness: the amended theorem applied to a concrete insights list with
one zero-conversion campaign, plus a concrete skipped-NaN mean. -/
theorem C2_witness :
    ((campaignAggFor [c2row] 7).conversions = 0) ∧
    ((campaignAggFor [c2row] 7).cpa = none) ∧
    optMean [none, some 4, some 2] = some 3 := by
  have hmem : campaignAggFor [c2row] 7 ∈ prepareCampaignInsights [c2row] := by
    simp [prepareCampaignInsights, campaignIds, c2row, List.dedup]
  have h := C2_prepared_cpa_nan_and_mean_excludes_nan [c2row] (campaignAggFor [c2row] 7) hmem
  have hconv : (campaignAggFor [c2row] 7).conversions = 0 := by
    norm_num [campaignAggFor, c2row]
  refine ⟨hconv, h.1 hconv, ?_⟩
  rw [h.2 [some 4, some 2]]
  norm_num [optMean, List.filterMap_cons]

/- ## Fatigue Detector: detect_ad_fatigue
   (src/processing/enhanced_fatigue_detection.py lines 6-220) -/

/-- One daily row of ad performance data.  Fields hold the cell values; which
columns actually exist in the DataFrame is tracked separately in
`FatigueCols`. -/
structure FatigueRow where
  date : ℤ
  ctr : ℚ
  frequency : ℚ
  conversions : ℚ
  clicks : ℚ
  spend : ℚ
deriving DecidableEq

/-- Column-presence flags of the per-ad daily DataFrame. -/
structure FatigueCols where
  ctr : Bool
  frequency : Bool
  conversions : Bool
  clicks : Bool
  spend : Bool
deriving DecidableEq

/-- A per-ad daily DataFrame: rows plus column presence. -/
structure FatigueData where
  rows : List FatigueRow
  cols : FatigueCols
deriving DecidableEq

/-- The p-values produced by `scipy.stats.linregress` for the three
regressions.  The t-distribution CDF is external library code, so the
p-values are modelled as inputs; every theorem below holds for all of
them. -/
structure PVals where
  ctr : ℚ
  conv : ℚ
  cpc : ℚ
deriving DecidableEq

/-- Row order `a.date ≤ b.date` used by `sort_values('date')`. -/
def dateLE (a b : FatigueRow) : Prop := a.date ≤ b.date

instance : DecidableRel dateLE := fun a b => inferInstanceAs (Decidable (a.date ≤ b.date))

/-- Rows sorted by date (`ad_daily_data.sort_values('date')`; ties keep
their incoming order in this model). -/
def sortByDate (rows : List FatigueRow) : List FatigueRow :=
  List.insertionSort dateLE rows

/-- Minimum of a list of dates (`dates.min()`); 0 for an empty list, which
the minimum-rows gate rules out in every analyzed case. -/
def listMinZ : List ℤ → ℤ
  | [] => 0
  | x :: xs => xs.foldl min x

/-- Maximum of a list of dates (`dates.max()`). -/
def listMaxZ : List ℤ → ℤ
  | [] => 0
  | x :: xs => xs.foldl max x

/-- days_running = (dates.max() - dates.min()).days + 1. -/
def daysRunning (data : FatigueData) : ℕ :=
  (listMaxZ (data.rows.map (·.date)) - listMinZ (data.rows.map (·.date))).toNat + 1

/-- Number of distinct calendar days present in the data (what the claim's
"distinct calendar days" denotes; the code never computes this). -/
def distinctDays (data : FatigueData) : ℕ :=
  ((data.rows.map (·.date)).dedup).length

/-- day_number column: date minus the minimum date, per sorted row. -/
def dayNumbers (sorted : List FatigueRow) : List ℚ :=
  let m := listMinZ (sorted.map (·.date))
  sorted.map (fun r => ((r.date - m : ℤ) : ℚ))

/-- Ordinary-least-squares slope of `scipy.stats.linregress` on a list of
points, in exact arithmetic: (n Σxy - Σx Σy) / (n Σxx - (Σx)²).  A zero
denominator (all x equal, where scipy yields NaN/raises) gives 0 here; every
use below guards the slope comparison accordingly. -/
def olsSlope (pts : List (ℚ × ℚ)) : ℚ :=
  let n : ℚ := pts.length
  let sx := (pts.map (·.1)).sum
  let sy := (pts.map (·.2)).sum
  let sxy := (pts.map (fun p => p.1 * p.2)).sum
  let sxx := (pts.map (fun p => p.1 * p.1)).sum
  (n * sxy - sx * sy) / (n * sxx - sx * sx)

/-- Ordinary-least-squares intercept: (Σy - slope Σx) / n. -/
def olsIntercept (pts : List (ℚ × ℚ)) : ℚ :=
  let n : ℚ := pts.length
  let sx := (pts.map (·.1)).sum
  let sy := (pts.map (·.2)).sum
  (sy - olsSlope pts * sx) / n

/-- Decides `pearson_corr(xs, ys) < -3/10` in exact arithmetic: with
cov = n Σxy - Σx Σy and var terms vx, vy, the inequality holds iff cov < 0
and 100 cov² > 9 vx vy.  When either variance is 0 the float correlation is
NaN and the comparison is False; then cov = 0 as well, so this matches. -/
def corrLtNeg03 (pts : List (ℚ × ℚ)) : Bool :=
  let n : ℚ := pts.length
  let sx := (pts.map (·.1)).sum
  let sy := (pts.map (·.2)).sum
  let sxy := (pts.map (fun p => p.1 * p.2)).sum
  let sxx := (pts.map (fun p => p.1 * p.1)).sum
  let syy := (pts.map (fun p => p.2 * p.2)).sum
  let cov := n * sxy - sx * sy
  let vx := n * sxx - sx * sx
  let vy := n * syy - sy * sy
  decide (cov < 0 ∧ 9 * vx * vy < 100 * cov * cov)

/-- metrics['ctr_regression'] entry. -/
structure CtrRegression where
  slope : ℚ
  intercept : ℚ
  p_value : ℚ
  significant_decline : Bool
  pct_change : Option ℚ
deriving DecidableEq

/-- metrics['conversion_regression'] / metrics['cpc_regression'] entries. -/
structure RegSignal where
  slope : ℚ
  p_value : ℚ
  significant : Bool
deriving DecidableEq

/-- The analysis metrics dict: `none` = key absent. -/
structure FatigueMetrics where
  ctr_regression : Option CtrRegression
  negative_frequency_correlation : Option Bool
  conversion_regression : Option RegSignal
  cpc_regression : Option RegSignal
  accelerating_decline : Option Bool
deriving DecidableEq

/-- The empty metrics dict of the early "not assessed" return. -/
def emptyFatigueMetrics : FatigueMetrics := ⟨none, none, none, none, none⟩

/-- Three-observation rolling mean with `min_periods=1`
(`ctr.rolling(window=3, min_periods=1).mean()`). -/
def rollingMean3 (l : List ℚ) : List ℚ :=
  (List.range l.length).map (fun i =>
    let w := (l.take (i + 1)).drop (i + 1 - 3)
    w.sum / (w.length : ℚ))

/-- Series.diff(): first entry NaN (`none`), then successive differences. -/
def diffList (l : List ℚ) : List (Option ℚ) :=
  match l with
  | [] => []
  | _ :: rest => none :: List.zipWith (fun a b => some (b - a)) l rest

/-- Per-row conversion rate is NaN exactly when 0/0 (`clicks = 0` and
`conversions = 0`); those rows are removed by `dropna(subset=['conv_rate'])`.
Rows with `clicks = 0` but nonzero numerator are ±inf and are kept. -/
def convKept (sorted : List FatigueRow) : List FatigueRow :=
  sorted.filter (fun r => ¬ (r.clicks = 0 ∧ r.conversions = 0))

/-- Whether any kept conversion-rate value is ±inf; scipy regression output
on such data is NaN, so the significance comparison is False. -/
def convHasInf (sorted : List FatigueRow) : Bool :=
  (convKept sorted).any (fun r => decide (r.clicks = 0))

/-- Kept rows of the CPC column (`spend / clicks` with dropna: only the 0/0
rows are NaN and dropped). -/
def cpcKept (sorted : List FatigueRow) : List FatigueRow :=
  sorted.filter (fun r => ¬ (r.clicks = 0 ∧ r.spend = 0))

/-- Whether any kept CPC value is ±inf. -/
def cpcHasInf (sorted : List FatigueRow) : Bool :=
  (cpcKept sorted).any (fun r => decide (r.clicks = 0))

/-- Day numbers paired with a per-row value, for a given subset of the
sorted rows. -/
def regPoints (sorted : List FatigueRow) (sub : List FatigueRow) (f : FatigueRow → ℚ) :
    List (ℚ × ℚ) :=
  let m := listMinZ (sorted.map (·.date))
  sub.map (fun r => (((r.date - m : ℤ) : ℚ), f r))

/-- The metrics dict built by detect_ad_fatigue (lines 56-147): CTR
regression, frequency/CTR correlation, conversion-rate regression, CPC
regression, and the 3-day moving-average velocity signal. -/
def fatigueMetrics (data : FatigueData) (pv : PVals) (min_days : ℕ) : FatigueMetrics :=
  let sorted := sortByDate data.rows
  let days_running := daysRunning data
  let ctr_regression :=
    if data.cols.ctr then
      let pts := regPoints sorted sorted (·.ctr)
      let slope := olsSlope pts
      let intercept := olsIntercept pts
      some { slope := slope, intercept := intercept, p_value := pv.ctr,
             significant_decline := decide (pv.ctr < 1/10 ∧ slope < 0),
             pct_change :=
               if 0 < days_running ∧ intercept ≠ 0 then
                 some (slope * days_running / intercept * 100)
               else none }
    else none
  let negative_frequency_correlation :=
    if data.cols.frequency ∧ data.cols.ctr then
      some (corrLtNeg03 (sorted.map (fun r => (r.frequency, r.ctr))))
    else none
  let conversion_regression :=
    if data.cols.conversions ∧ data.cols.clicks then
      let kept := convKept sorted
      if 0 < kept.length ∧ min_days ≤ kept.length then
        let hasInf := convHasInf sorted
        let slope :=
          if hasInf then 0
          else olsSlope (regPoints sorted kept (fun r => r.conversions / r.clicks * 100))
        some { slope := slope, p_value := pv.conv,
               significant := decide (¬ hasInf = true ∧ pv.conv < 1/10 ∧ slope < 0) }
      else none
    else none
  let cpc_regression :=
    if data.cols.clicks ∧ data.cols.spend then
      let kept := cpcKept sorted
      if min_days ≤ kept.length then
        let hasInf := cpcHasInf sorted
        let slope :=
          if hasInf then 0
          else olsSlope (regPoints sorted kept (fun r => r.spend / r.clicks))
        some { slope := slope, p_value := pv.cpc,
               significant := decide (¬ hasInf = true ∧ pv.cpc < 1/10 ∧ 0 < slope) }
      else none
    else none
  let accelerating_decline :=
    if data.cols.ctr ∧ min_days + 2 ≤ data.rows.length then
      let ma := rollingMean3 (sorted.map (·.ctr))
      let d := diffList ma
      let last3 := d.drop (d.length - 3)
      match optMean last3 with
      | some v => some (decide (v < 0))
      | none => some false
    else none
  { ctr_regression := ctr_regression,
    negative_frequency_correlation := negative_frequency_correlation,
    conversion_regression := conversion_regression,
    cpc_regression := cpc_regression,
    accelerating_decline := accelerating_decline }

/-- Count of fired fatigue signals (lines 150-181: the five conditional
`fatigue_signals += 1` increments). -/
def firedSignals (m : FatigueMetrics) : ℕ :=
  (match m.ctr_regression with
   | some r => if r.significant_decline then 1 else 0
   | none => 0) +
  (match m.negative_frequency_correlation with
   | some b => if b then 1 else 0
   | none => 0) +
  (match m.conversion_regression with
   | some r => if r.significant then 1 else 0
   | none => 0) +
  (match m.cpc_regression with
   | some r => if r.significant then 1 else 0
   | none => 0) +
  (match m.accelerating_decline with
   | some b => if b then 1 else 0
   | none => 0)

/-- Count of evaluable signals (lines 150-181: the five conditional
`max_signals += 1` increments, one per metrics key present). -/
def evaluableSignals (m : FatigueMetrics) : ℕ :=
  (if m.ctr_regression.isSome then 1 else 0) +
  (if m.negative_frequency_correlation.isSome then 1 else 0) +
  (if m.conversion_regression.isSome then 1 else 0) +
  (if m.cpc_regression.isSome then 1 else 0) +
  (if m.accelerating_decline.isSome then 1 else 0)

/-- Severity labels of the fatigue result. -/
inductive FatigueSeverity
  | moderate
  | severe
deriving DecidableEq

/-- Result dict of detect_ad_fatigue.  `days_running` and `severity` are
`none` when the corresponding keys are absent (early return / not
fatigued). -/
structure FatigueResult where
  is_fatigued : Bool
  confidence : ℚ
  metrics : FatigueMetrics
  days_running : Option ℕ
  severity : Option FatigueSeverity
deriving DecidableEq

/-- The "not assessed" early return (lines 27-47): is_fatigued False,
confidence 0, empty metrics, no days_running, no severity. -/
def notAssessedResult : FatigueResult :=
  { is_fatigued := false, confidence := 0, metrics := emptyFatigueMetrics,
    days_running := none, severity := none }

/-- Lines 149-220 of detect_ad_fatigue given the metrics dict: signal
counting, the day-dampened confidence, the threshold comparison, and the
severity label attached only to fatigued results. -/
def fatigueOutcome (m : FatigueMetrics) (days_running : ℕ)
    (confidence_threshold : ℚ) : FatigueResult :=
  let fired := firedSignals m
  let max_signals := evaluableSignals m
  let signal_confidence : ℚ :=
    if 0 < max_signals then (fired : ℚ) / (max_signals : ℚ) else 0
  let day_factor : ℚ := min 1 ((days_running : ℚ) / 14)
  let confidence := signal_confidence * day_factor
  let is_fatigued := decide (confidence_threshold ≤ confidence)
  { is_fatigued := is_fatigued,
    confidence := confidence,
    metrics := m,
    days_running := some days_running,
    severity :=
      if is_fatigued then
        some (if (8/10 : ℚ) < confidence then FatigueSeverity.severe
              else FatigueSeverity.moderate)
      else none }

/-- detect_ad_fatigue (enhanced_fatigue_detection.py): minimum-data gates on
row count and on day span, then the metrics dict and the confidence/severity
outcome. -/
def detect_ad_fatigue (data : FatigueData) (pv : PVals) (min_days : ℕ)
    (confidence_threshold : ℚ) : FatigueResult :=
  if data.rows.length < min_days then notAssessedResult
  else
    if daysRunning data < min_days then notAssessedResult
    else fatigueOutcome (fatigueMetrics data pv min_days) (daysRunning data) confidence_threshold

/-- Confidence of the outcome step equals fired/evaluable times the day
factor; with no evaluable signals both the code branch and the rational
division-by-zero convention give 0. -/
theorem fatigueOutcome_confidence (m : FatigueMetrics) (dr : ℕ) (t : ℚ) :
    (fatigueOutcome m dr t).confidence =
      ((firedSignals m : ℚ) / (evaluableSignals m : ℚ)) * min 1 ((dr : ℚ) / 14) := by
  by_cases h : 0 < evaluableSignals m
  · simp [fatigueOutcome, h]
  · have h0 : evaluableSignals m = 0 := Nat.eq_zero_of_not_pos h
    simp [fatigueOutcome, h, h0]

/-- The fatigued flag of the outcome step decides the threshold
comparison. -/
theorem fatigueOutcome_is_fatigued_iff (m : FatigueMetrics) (dr : ℕ) (t : ℚ) :
    (fatigueOutcome m dr t).is_fatigued = true ↔ t ≤ (fatigueOutcome m dr t).confidence := by
  simp [fatigueOutcome]

/-- With a threshold above 0.8, a fatigued outcome is always labelled
severe. -/
theorem fatigueOutcome_severity_severe (m : FatigueMetrics) (dr : ℕ) (t : ℚ)
    (ht : (8/10 : ℚ) < t) (h : (fatigueOutcome m dr t).is_fatigued = true) :
    (fatigueOutcome m dr t).severity = some FatigueSeverity.severe := by
  have hconf := (fatigueOutcome_is_fatigued_iff m dr t).mp h
  have h8 : (8/10 : ℚ) < (fatigueOutcome m dr t).confidence := lt_of_lt_of_le ht hconf
  simp only [fatigueOutcome] at h h8 ⊢
  rw [h]
  rw [if_pos rfl, if_pos h8]

/-- C5: for every dataset past the minimum-days gate (default min_days = 5)
and every modelled regression p-values, the returned confidence equals
(fired signals / evaluable signals) × min(1, days_running/14), confidence is
0 when no signal is evaluable, and is_fatigued is true exactly when the
confidence reaches the 0.90 default threshold. -/
theorem C5_confidence_formula (data : FatigueData) (pv : PVals)
    (h1 : ¬ data.rows.length < 5) (h2 : ¬ daysRunning data < 5) :
    (detect_ad_fatigue data pv 5 (9/10)).confidence =
      ((firedSignals (fatigueMetrics data pv 5) : ℚ) /
        (evaluableSignals (fatigueMetrics data pv 5) : ℚ)) *
        min 1 ((daysRunning data : ℚ) / 14) ∧
    (evaluableSignals (fatigueMetrics data pv 5) = 0 →
      (detect_ad_fatigue data pv 5 (9/10)).confidence = 0) ∧
    ((detect_ad_fatigue data pv 5 (9/10)).is_fatigued = true ↔
      (9/10 : ℚ) ≤ (detect_ad_fatigue data pv 5 (9/10)).confidence) := by
  have hd : detect_ad_fatigue data pv 5 (9/10) =
      fatigueOutcome (fatigueMetrics data pv 5) (daysRunning data) (9/10) := by
    simp [detect_ad_fatigue, h1, h2]
  refine ⟨?_, ?_, ?_⟩
  · rw [hd, fatigueOutcome_confidence]
  · intro h0
    rw [hd, fatigueOutcome_confidence, h0]
    simp
  · rw [hd]
    exact fatigueOutcome_is_fatigued_iff _ _ _

/-- C9: with the default 0.90 confidence threshold, every fatigued
assessment carries severity "severe"; the "moderate" branch (confidence
≤ 0.8) is unreachable because severity is assigned only after
confidence ≥ 0.90 holds. -/
theorem C9_fatigued_implies_severe (data : FatigueData) (pv : PVals)
    (h : (detect_ad_fatigue data pv 5 (9/10)).is_fatigued = true) :
    (detect_ad_fatigue data pv 5 (9/10)).severity = some FatigueSeverity.severe := by
  by_cases h1 : data.rows.length < 5
  · rw [detect_ad_fatigue, if_pos h1] at h
    exact absurd h (by simp [notAssessedResult])
  by_cases h2 : daysRunning data < 5
  · rw [detect_ad_fatigue, if_neg h1, if_pos h2] at h
    exact absurd h (by simp [notAssessedResult])
  have hd : detect_ad_fatigue data pv 5 (9/10) =
      fatigueOutcome (fatigueMetrics data pv 5) (daysRunning data) (9/10) := by
    simp [detect_ad_fatigue, h1, h2]
  rw [hd] at h ⊢
  exact fatigueOutcome_severity_severe _ _ _ (by norm_num) h

/-- Folded minimum is below its initial value. -/
theorem foldlMin_le_init (l : List ℤ) : ∀ a : ℤ, l.foldl min a ≤ a := by
  induction l with
  | nil => intro a; simp
  | cons x xs ih => intro a; exact le_trans (ih (min a x)) (min_le_left a x)

/-- Folded minimum is below every member. -/
theorem foldlMin_le_mem (l : List ℤ) : ∀ a x : ℤ, x ∈ l → l.foldl min a ≤ x := by
  induction l with
  | nil => intro a x hx; cases hx
  | cons y ys ih =>
    intro a x hx
    rcases List.mem_cons.mp hx with rfl | hx
    · exact le_trans (foldlMin_le_init ys (min a x)) (min_le_right a x)
    · exact ih (min a y) x hx

/-- listMinZ is a lower bound of the list. -/
theorem listMinZ_le_of_mem {l : List ℤ} {x : ℤ} (hx : x ∈ l) : listMinZ l ≤ x := by
  cases l with
  | nil => cases hx
  | cons y ys =>
    rcases List.mem_cons.mp hx with rfl | hx
    · exact foldlMin_le_init ys x
    · exact foldlMin_le_mem ys y x hx

/-- Folded maximum is above its initial value. -/
theorem init_le_foldlMax (l : List ℤ) : ∀ a : ℤ, a ≤ l.foldl max a := by
  induction l with
  | nil => intro a; simp
  | cons x xs ih => intro a; exact le_trans (le_max_left a x) (ih (max a x))

/-- Folded maximum is above every member. -/
theorem mem_le_foldlMax (l : List ℤ) : ∀ a x : ℤ, x ∈ l → x ≤ l.foldl max a := by
  induction l with
  | nil => intro a x hx; cases hx
  | cons y ys ih =>
    intro a x hx
    rcases List.mem_cons.mp hx with rfl | hx
    · exact le_trans (le_max_right a x) (init_le_foldlMax ys (max a x))
    · exact ih (max a y) x hx

/-- listMaxZ is an upper bound of the list. -/
theorem le_listMaxZ_of_mem {l : List ℤ} {x : ℤ} (hx : x ∈ l) : x ≤ listMaxZ l := by
  cases l with
  | nil => cases hx
  | cons y ys =>
    rcases List.mem_cons.mp hx with rfl | hx
    · exact init_le_foldlMax ys x
    · exact mem_le_foldlMax ys y x hx

/-- The number of distinct dates never exceeds the row count. -/
theorem distinctDays_le_length (data : FatigueData) :
    distinctDays data ≤ data.rows.length := by
  have h := (List.dedup_sublist (data.rows.map (·.date))).length_le
  simpa [distinctDays] using h

/-- The number of distinct dates never exceeds the day span used as
days_running: distinct dates are pairwise different integers inside the
interval [min, max], which holds max - min + 1 values. -/
theorem distinctDays_le_daysRunning (data : FatigueData) :
    distinctDays data ≤ daysRunning data := by
  rcases hd : data.rows.map (·.date) with _ | ⟨d, ds⟩
  · simp [distinctDays, hd, daysRunning]
  · set dates : List ℤ := data.rows.map (·.date) with hdates
    have hne : dates ≠ [] := by rw [hd]; exact List.cons_ne_nil _ _
    have hmem : d ∈ dates := by rw [hd]; exact List.mem_cons_self _ _
    have hab : listMinZ dates ≤ listMaxZ dates :=
      le_trans (listMinZ_le_of_mem hmem) (le_listMaxZ_of_mem hmem)
    have hsub : dates.dedup.toFinset ⊆ Finset.Icc (listMinZ dates) (listMaxZ dates) := by
      intro x hx
      have hx' : x ∈ dates := (List.mem_dedup).mp (List.mem_toFinset.mp hx)
      exact Finset.mem_Icc.mpr ⟨listMinZ_le_of_mem hx', le_listMaxZ_of_mem hx'⟩
    have hcard : dates.dedup.length ≤ (Finset.Icc (listMinZ dates) (listMaxZ dates)).card := by
      rw [← List.toFinset_card_of_nodup (List.nodup_dedup dates)]
      exact Finset.card_le_card hsub
    have hicc : (Finset.Icc (listMinZ dates) (listMaxZ dates)).card =
        (listMaxZ dates - listMinZ dates).toNat + 1 := by
      rw [Int.card_Icc]
      have h1 : listMaxZ dates + 1 - listMinZ dates =
          (listMaxZ dates - listMinZ dates) + 1 := by ring
      rw [h1, Int.toNat_add (by omega) (by omega)]
      norm_num
    calc distinctDays data = dates.dedup.length := by rw [distinctDays, hdates]
    _ ≤ (Finset.Icc (listMinZ dates) (listMaxZ dates)).card := hcard
    _ = (listMaxZ dates - listMinZ dates).toNat + 1 := hicc
    _ = daysRunning data := by rw [daysRunning, hdates]

/-- C4 (amended): the gate of detect_ad_fatigue is on the row count and on
the day span (max date - min date + 1), not on distinct calendar days: any
dataset with fewer than min_days = 5 rows or a span below 5 days gets the
not-assessed result, and any dataset with at least 5 distinct calendar days
always passes the gate (row count and span are at least the distinct-day
count); however a dataset can also pass with fewer than 5 distinct calendar
days, as the counterexample shows. -/
theorem C4_min_days_gate (data : FatigueData) (pv : PVals) :
    ((data.rows.length < 5 ∨ daysRunning data < 5) →
      detect_ad_fatigue data pv 5 (9/10) = notAssessedResult) ∧
    (5 ≤ distinctDays data →
      (detect_ad_fatigue data pv 5 (9/10)).days_running = some (daysRunning data)) := by
  constructor
  · rintro (h | h)
    · rw [detect_ad_fatigue, if_pos h]
    · by_cases h1 : data.rows.length < 5
      · rw [detect_ad_fatigue, if_pos h1]
      · rw [detect_ad_fatigue, if_neg h1, if_pos h]
  · intro h
    have h1 : ¬ data.rows.length < 5 :=
      not_lt.mpr (le_trans h (distinctDays_le_length data))
    have h2 : ¬ daysRunning data < 5 :=
      not_lt.mpr (le_trans h (distinctDays_le_daysRunning data))
    rw [detect_ad_fatigue, if_neg h1, if_neg h2]
    simp [fatigueOutcome]

/-- All-absent column set except ctr. -/
def ctrOnlyCols : FatigueCols :=
  { ctr := true, frequency := false, conversions := false, clicks := false, spend := false }

/-- Trivial p-values (the theorems hold for every choice). -/
def pvOne : PVals := ⟨1, 1, 1⟩

/-- Seven rows on only three distinct days (0, 2, 4) whose CTR has exact
regression slope 0 but a declining recent moving average. -/
def c4rows : List FatigueRow :=
  [⟨0, 1, 0, 0, 0, 0⟩, ⟨0, 1, 0, 0, 0, 0⟩, ⟨0, 1, 0, 0, 0, 0⟩,
   ⟨2, 9, 0, 0, 0, 0⟩, ⟨2, 9, 0, 0, 0, 0⟩, ⟨4, 0, 0, 0, 0, 0⟩, ⟨4, 0, 0, 0, 0, 0⟩]

/-- The counterexample dataset for the distinct-days reading of the gate. -/
def c4data : FatigueData := ⟨c4rows, ctrOnlyCols⟩

/-- Metrics dict computed by the code on `c4data`: CTR regression with slope
exactly 0 (not significant) and a fired accelerating-decline signal. -/
def c4metrics : FatigueMetrics :=
  { ctr_regression := some ⟨0, 3, 1, false, some 0⟩,
    negative_frequency_correlation := none,
    conversion_regression := none,
    cpc_regression := none,
    accelerating_decline := some true }

/-- Evaluation of the metrics dict on the counterexample dataset. -/
theorem c4metrics_eval : fatigueMetrics c4data pvOne 5 = c4metrics := by
  norm_num [fatigueMetrics, c4metrics, c4data, c4rows, ctrOnlyCols, pvOne,
    sortByDate, List.insertionSort, List.orderedInsert, dateLE, daysRunning,
    listMinZ, listMaxZ, regPoints, olsSlope, olsIntercept, rollingMean3,
    diffList, optMean, List.range_succ, List.filterMap_cons,
    decide_eq_true_eq, decide_eq_false_iff_not, min_def]

/-- C4 counterexample: `c4data` has only 3 distinct calendar days (fewer
than min_days = 5), yet detect_ad_fatigue does not return the not-assessed
result: it proceeds past the gate (7 rows, day span 5), records
days_running = 5, and returns confidence 5/28 ≠ 0 (one fired signal out of
two evaluable, damped by 5/14). -/
theorem C4_counterexample_three_distinct_days_assessed :
    distinctDays c4data = 3 ∧
    (detect_ad_fatigue c4data pvOne 5 (9/10)).days_running = some 5 ∧
    (detect_ad_fatigue c4data pvOne 5 (9/10)).confidence = 5/28 := by
  have hlen : ¬ c4data.rows.length < 5 := by decide
  have h5 : daysRunning c4data = 5 := by decide
  have hd : detect_ad_fatigue c4data pvOne 5 (9/10) = fatigueOutcome c4metrics 5 (9/10) := by
    rw [detect_ad_fatigue, if_neg hlen, h5, if_neg (by norm_num), c4metrics_eval]
  refine ⟨by decide, ?_, ?_⟩
  · rw [hd]
    simp [fatigueOutcome]
  · rw [hd, fatigueOutcome_confidence]
    rw [show firedSignals c4metrics = 1 from by decide,
        show evaluableSignals c4metrics = 2 from by decide]
    norm_num [min_def]

/-- Single-row dataset used to witness the short-data branch of the gate. -/
def c4short : FatigueData := ⟨[⟨0, 1, 0, 0, 0, 0⟩], ctrOnlyCols⟩

/-- Five rows on five distinct days used to witness the pass branch. -/
def c5rows : List FatigueRow :=
  [⟨0, 5, 0, 0, 0, 0⟩, ⟨1, 4, 0, 0, 0, 0⟩, ⟨2, 3, 0, 0, 0, 0⟩,
   ⟨3, 2, 0, 0, 0, 0⟩, ⟨4, 1, 0, 0, 0, 0⟩]

/-- Five-distinct-day dataset. -/
def c5data : FatigueData := ⟨c5rows, ctrOnlyCols⟩

/-- C4 witness: the amended gate theorem applied to a one-row dataset (not
assessed) and to a five-distinct-day dataset (assessed, days_running 5). -/
theorem C4_witness :
    detect_ad_fatigue c4short pvOne 5 (9/10) = notAssessedResult ∧
    (detect_ad_fatigue c5data pvOne 5 (9/10)).days_running = some 5 := by
  constructor
  · exact (C4_min_days_gate c4short pvOne).1 (Or.inl (by decide))
  · have h := (C4_min_days_gate c5data pvOne).2 (by decide)
    rw [h]
    norm_num [show daysRunning c5data = 5 from by decide]

/-- C5 witness: the confidence formula applied to the concrete assessed
dataset `c4data`. -/
theorem C5_witness :
    (¬ c4data.rows.length < 5 ∧ ¬ daysRunning c4data < 5) ∧
    ((detect_ad_fatigue c4data pvOne 5 (9/10)).is_fatigued = true ↔
      (9/10 : ℚ) ≤ (detect_ad_fatigue c4data pvOne 5 (9/10)).confidence) ∧
    (detect_ad_fatigue c4data pvOne 5 (9/10)).confidence =
      ((firedSignals (fatigueMetrics c4data pvOne 5) : ℚ) /
        (evaluableSignals (fatigueMetrics c4data pvOne 5) : ℚ)) *
        min 1 ((daysRunning c4data : ℚ) / 14) := by
  have h1 : ¬ c4data.rows.length < 5 := by decide
  have h2 : ¬ daysRunning c4data < 5 := by decide
  have h := C5_confidence_formula c4data pvOne h1 h2
  exact ⟨⟨h1, h2⟩, h.2.2, h.1⟩

/-- Small p-values consistent with the perfectly linear witness data. -/
def pvSmall : PVals := ⟨1/100, 1/100, 1/100⟩

/-- Fourteen daily rows with a strictly declining CTR, rising frequency,
declining conversions and rising spend over constant clicks. -/
def c9rows : List FatigueRow :=
  [⟨0, 20, 1, 14, 10, 10⟩, ⟨1, 19, 2, 13, 10, 20⟩, ⟨2, 18, 3, 12, 10, 30⟩,
   ⟨3, 17, 4, 11, 10, 40⟩, ⟨4, 16, 5, 10, 10, 50⟩, ⟨5, 15, 6, 9, 10, 60⟩,
   ⟨6, 14, 7, 8, 10, 70⟩, ⟨7, 13, 8, 7, 10, 80⟩, ⟨8, 12, 9, 6, 10, 90⟩,
   ⟨9, 11, 10, 5, 10, 100⟩, ⟨10, 10, 11, 4, 10, 110⟩, ⟨11, 9, 12, 3, 10, 120⟩,
   ⟨12, 8, 13, 2, 10, 130⟩, ⟨13, 7, 14, 1, 10, 140⟩]

/-- Fourteen-day dataset with every analysis column present. -/
def c9data : FatigueData := ⟨c9rows, ⟨true, true, true, true, true⟩⟩

/-- Metrics dict computed by the code on `c9data`: all five signals
evaluable and fired. -/
def c9metrics : FatigueMetrics :=
  { ctr_regression := some ⟨-1, 20, 1/100, true, some (-70)⟩,
    negative_frequency_correlation := some true,
    conversion_regression := some ⟨-10, 1/100, true⟩,
    cpc_regression := some ⟨1, 1/100, true⟩,
    accelerating_decline := some true }

/-- Evaluation of the metrics dict on the severity witness dataset. -/
theorem c9metrics_eval : fatigueMetrics c9data pvSmall 5 = c9metrics := by
  norm_num [fatigueMetrics, c9metrics, c9data, c9rows, pvSmall,
    sortByDate, List.insertionSort, List.orderedInsert, dateLE, daysRunning,
    listMinZ, listMaxZ, regPoints, olsSlope, olsIntercept, corrLtNeg03,
    convKept, convHasInf, cpcKept, cpcHasInf, rollingMean3,
    diffList, optMean, List.range_succ, List.filterMap_cons, List.filter_cons,
    List.any_cons, decide_eq_true_eq, decide_eq_false_iff_not, min_def,
    Int.toNat_ofNat, show ((13 : ℤ).toNat) = 13 from by decide]

/-- C9 witness: the severity theorem applied to `c9data`, where all five
signals fire over 14 days, giving confidence 1, a fatigued flag, and the
severe label. -/
theorem C9_witness :
    (detect_ad_fatigue c9data pvSmall 5 (9/10)).is_fatigued = true ∧
    (detect_ad_fatigue c9data pvSmall 5 (9/10)).severity = some FatigueSeverity.severe := by
  have hlen : ¬ c9data.rows.length < 5 := by decide
  have h14 : daysRunning c9data = 14 := by decide
  have hd : detect_ad_fatigue c9data pvSmall 5 (9/10) = fatigueOutcome c9metrics 14 (9/10) := by
    rw [detect_ad_fatigue, if_neg hlen, h14, if_neg (by norm_num), c9metrics_eval]
  have hfat : (detect_ad_fatigue c9data pvSmall 5 (9/10)).is_fatigued = true := by
    rw [hd, fatigueOutcome_is_fatigued_iff, fatigueOutcome_confidence]
    rw [show firedSignals c9metrics = 5 from by decide,
        show evaluableSignals c9metrics = 5 from by decide]
    norm_num [min_def]
  exact ⟨hfat, C9_fatigued_implies_severe c9data pvSmall hfat⟩

/- ## Audience Segment Analyzer: AudienceTargetingAnalyzer._analyze_segment_type
   (src/processing/audience_targeting_analyzer.py lines 158-232) -/

/-- One insights row restricted to a single segment dimension: the segment
value (encoded as a natural number) plus the summed numeric columns.  The
resolved conversion column (conversions/purchases/total_conversions) is
carried in `conversions`; whether any such column exists in the data is the
separate `hasConv` flag of the analysis. -/
structure SegRow where
  seg : ℕ
  impressions : ℚ
  clicks : ℚ
  spend : ℚ
  conversions : ℚ
deriving DecidableEq

/-- Group sums of `df.groupby(segment_type).agg(sum)` for one segment
value. -/
structure SegAgg where
  seg : ℕ
  impressions : ℚ
  clicks : ℚ
  spend : ℚ
deriving DecidableEq

/-- Segment values in order of first appearance (one group per distinct
value). -/
def segKeys (rows : List SegRow) : List ℕ :=
  (rows.map (·.seg)).dedup

/-- Aggregation of impressions/clicks/spend for one segment value. -/
def segAggFor (rows : List SegRow) (k : ℕ) : SegAgg :=
  let grp := rows.filter (fun r => r.seg = k)
  { seg := k, impressions := (grp.map (·.impressions)).sum,
    clicks := (grp.map (·.clicks)).sum, spend := (grp.map (·.spend)).sum }

/-- Conversion-column sum for one segment value
(`df.groupby(segment_type)[conv_col].sum()`). -/
def segConvFor (rows : List SegRow) (k : ℕ) : ℚ :=
  ((rows.filter (fun r => r.seg = k)).map (·.conversions)).sum

/-- One record of the output `segment_metrics` list: group sums plus the
derived metrics and index values of lines 182-214.  Conversion-based fields
are present only when a conversion column exists; `cpa` is `none` (NaN) for
zero-conversion groups (`replace(0, np.nan)`).  Zero-denominator divisions
follow the rational convention x/0 = 0 where the float code would produce
inf; the claim being checked constrains only group membership, which these
values do not affect. -/
structure SegGroup where
  seg : ℕ
  impressions : ℚ
  clicks : ℚ
  spend : ℚ
  ctr : ℚ
  conversions : Option ℚ
  conversion_rate : Option ℚ
  cpa : Option ℚ
  cpm : ℚ
  cpc : ℚ
  ctr_index : ℚ
  conversion_rate_index : Option ℚ
  cpa_index : Option ℚ
deriving DecidableEq

/-- Derived metrics for one qualifying group (lines 182-214), relative to
the averages over the qualifying groups. -/
def segDerived (rows : List SegRow) (hasConv : Bool) (qualified : List SegAgg)
    (g : SegAgg) : SegGroup :=
  let totImp := (qualified.map (·.impressions)).sum
  let totClicks := (qualified.map (·.clicks)).sum
  let totSpend := (qualified.map (·.spend)).sum
  let totConv := (qualified.map (fun q => segConvFor rows q.seg)).sum
  let avg_ctr := totClicks / totImp * 100
  let avg_conv_rate := totConv / totClicks * 100
  let avg_cpa := totSpend / totConv
  let conv := segConvFor rows g.seg
  let ctr := g.clicks / g.impressions * 100
  let cpa : Option ℚ :=
    if hasConv then (if conv = 0 then none else some (g.spend / conv)) else none
  { seg := g.seg, impressions := g.impressions, clicks := g.clicks,
    spend := g.spend,
    ctr := ctr,
    conversions := if hasConv then some conv else none,
    conversion_rate := if hasConv then some (conv / g.clicks * 100) else none,
    cpa := cpa,
    cpm := g.spend / g.impressions * 1000,
    cpc := g.spend / g.clicks,
    ctr_index := ctr / avg_ctr * 100,
    conversion_rate_index :=
      if hasConv then some ((conv / g.clicks * 100) / avg_conv_rate * 100) else none,
    cpa_index :=
      match cpa with
      | none => none
      | some c => if c = 0 then none else some (avg_cpa / c * 100) }

/-- The `segment_metrics` list built by `_analyze_segment_type`: group rows
by segment value, sum impressions/clicks/spend, keep groups whose summed
impressions reach min_segment_size, return `None` when fewer than two
qualify, otherwise the qualifying groups with derived metrics.  The
significance stats and best/worst fields of the source dict are not
modelled: they add no rows and drop none, and the z-test needs scipy's
normal CDF. -/
def analyze_segment_type (rows : List SegRow) (hasConv : Bool) (minSize : ℚ) :
    Option (List SegGroup) :=
  let groups := (segKeys rows).map (segAggFor rows)
  let qualified := groups.filter (fun g => minSize ≤ g.impressions)
  if qualified.length < 2 then none
  else some (qualified.map (segDerived rows hasConv qualified))

/-- C6: every group in the output segment_metrics list has summed
impressions at least min_segment_size (so a group at min_segment_size - 1
can never appear), every segment value whose summed impressions reach
min_segment_size (boundary included) appears when a result is produced, and
the dimension yields no result exactly when fewer than two groups
qualify. -/
theorem C6_segment_min_size (rows : List SegRow) (hasConv : Bool) (minSize : ℚ) :
    (∀ res, analyze_segment_type rows hasConv minSize = some res →
      (∀ g ∈ res, minSize ≤ g.impressions) ∧
      (∀ k ∈ segKeys rows, minSize ≤ (segAggFor rows k).impressions →
        ∃ g ∈ res, g.seg = k)) ∧
    (analyze_segment_type rows hasConv minSize = none ↔
      (((segKeys rows).map (segAggFor rows)).filter
        (fun g => minSize ≤ g.impressions)).length < 2) := by
  constructor
  · intro res hres
    rw [analyze_segment_type] at hres
    by_cases hq : (((segKeys rows).map (segAggFor rows)).filter
        (fun g => minSize ≤ g.impressions)).length < 2
    · rw [if_pos hq] at hres
      cases hres
    · rw [if_neg hq, Option.some.injEq] at hres
      constructor
      · intro g hg
        rw [← hres] at hg
        rcases List.mem_map.mp hg with ⟨a, ha, rfl⟩
        have := (List.mem_filter.mp ha).2
        have himp : minSize ≤ a.impressions := by simpa using this
        simpa [segDerived] using himp
      · intro k hk hkimp
        refine ⟨segDerived rows hasConv
            (((segKeys rows).map (segAggFor rows)).filter (fun g => minSize ≤ g.impressions))
            (segAggFor rows k), ?_, by simp [segDerived, segAggFor]⟩
        rw [← hres]
        refine List.mem_map.mpr ⟨segAggFor rows k, ?_, rfl⟩
        refine List.mem_filter.mpr ⟨List.mem_map.mpr ⟨k, hk, rfl⟩, by simpa using hkimp⟩
  · rw [analyze_segment_type]
    by_cases hq : (((segKeys rows).map (segAggFor rows)).filter
        (fun g => minSize ≤ g.impressions)).length < 2
    · simp [hq]
    · simp [hq]

/-- Concrete segment rows: segment 1 sums to exactly 100 impressions over
two rows, segment 2 to 150, segment 3 to 99 (one below the threshold). -/
def c6rows : List SegRow :=
  [⟨1, 60, 3, 6, 0⟩, ⟨1, 40, 2, 4, 0⟩, ⟨2, 150, 15, 20, 0⟩, ⟨3, 99, 1, 1, 0⟩]

/-- Rows of segment 1 only: a single qualifying group. -/
def c6small : List SegRow := [⟨1, 60, 3, 6, 0⟩, ⟨1, 40, 2, 4, 0⟩]

/-- The segment_metrics list the code produces on `c6rows` at
min_segment_size 100: segments 1 (boundary, included) and 2; segment 3
(99 impressions) excluded. -/
def c6result : List SegGroup :=
  [{ seg := 1, impressions := 100, clicks := 5, spend := 10, ctr := 5,
     conversions := none, conversion_rate := none, cpa := none,
     cpm := 100, cpc := 2, ctr_index := 125/2,
     conversion_rate_index := none, cpa_index := none },
   { seg := 2, impressions := 150, clicks := 15, spend := 20, ctr := 10,
     conversions := none, conversion_rate := none, cpa := none,
     cpm := 400/3, cpc := 4/3, ctr_index := 125,
     conversion_rate_index := none, cpa_index := none }]

/-- C6 witness: the boundary theorem applied to `c6rows` (two qualifying
groups, one at exactly min_segment_size) and to `c6small` (a single
qualifying group, so the dimension yields no result). -/
theorem C6_witness :
    analyze_segment_type c6rows false 100 = some c6result ∧
    (∀ g ∈ c6result, (100 : ℚ) ≤ g.impressions) ∧
    (∃ g ∈ c6result, g.seg = 1) ∧
    analyze_segment_type c6small false 100 = none := by
  have heval : analyze_segment_type c6rows false 100 = some c6result := by
    norm_num [analyze_segment_type, segKeys, segAggFor, segConvFor, segDerived,
      c6rows, c6result, List.dedup_cons_of_mem, List.dedup_cons_of_not_mem,
      List.filter_cons, decide_eq_true_eq, decide_eq_false_iff_not]
  have h := C6_segment_min_size c6rows false 100
  refine ⟨heval, (h.1 c6result heval).1, ?_, ?_⟩
  · refine (h.1 c6result heval).2 1 (by decide) ?_
    norm_num [segAggFor, c6rows, List.filter_cons, decide_eq_true_eq,
      decide_eq_false_iff_not]
  · refine (C6_segment_min_size c6small false 100).2.mpr ?_
    norm_num [segKeys, segAggFor, c6small, List.dedup_cons_of_mem,
      List.dedup_cons_of_not_mem, List.filter_cons, decide_eq_true_eq,
      decide_eq_false_iff_not]

/- ## Recommendation Synthesizer: EnhancedAdAccountAnalyzer._prioritize_recommendations
   (src/analysis/enhanced_analyzer.py lines 743-803) -/

/-- Recommendation type tags of the `type_priority` lookup table; `other`
stands for any type string outside the table (including a missing type),
which falls back to the default base priority 50. -/
inductive RecType
  | budget_allocation_imbalance
  | campaign_budget_inefficiency
  | adset_budget_inefficiency
  | ad_fatigue
  | cross_segment_conversion_rate_optimization
  | cross_segment_cpa_optimization
  | age_conversion_rate_optimization
  | gender_conversion_rate_optimization
  | device_conversion_rate_optimization
  | ad_performance_inefficiency
  | bottom_creative_pausing
  | top_creative_scaling
  | ctr_trend
  | cpa_trend
  | other
deriving DecidableEq

/-- type_priority lookup (`type_priority.get(rec.get('type', ''), 50)`). -/
def type_priority : RecType → ℚ
  | .budget_allocation_imbalance => 100
  | .campaign_budget_inefficiency => 90
  | .adset_budget_inefficiency => 80
  | .ad_fatigue => 70
  | .cross_segment_conversion_rate_optimization => 65
  | .cross_segment_cpa_optimization => 65
  | .age_conversion_rate_optimization => 60
  | .gender_conversion_rate_optimization => 60
  | .device_conversion_rate_optimization => 55
  | .ad_performance_inefficiency => 50
  | .bottom_creative_pausing => 45
  | .top_creative_scaling => 40
  | .ctr_trend => 30
  | .cpa_trend => 35
  | .other => 50

/-- Severity labels; `other` stands for any severity string outside the
multiplier table, which falls back to multiplier 1.0 (a missing severity
defaults to 'medium', likewise multiplier 1.0). -/
inductive Severity
  | high
  | medium
  | low
  | other
deriving DecidableEq

/-- severity_multiplier lookup (`severity_multiplier.get(severity, 1.0)`). -/
def severity_multiplier : Severity → ℚ
  | .high => 3/2
  | .medium => 1
  | .low => 1/2
  | .other => 1

/-- An incoming recommendation record: type, severity and potential savings
(`rec.get('potential_savings', 0)`: a missing value is 0). -/
structure RecIn where
  rtype : RecType
  severity : Severity
  potential_savings : ℚ
deriving DecidableEq

/-- A recommendation with its assigned priority_score. -/
structure RecOut where
  rtype : RecType
  severity : Severity
  potential_savings : ℚ
  priority_score : ℚ
deriving DecidableEq

/-- priority_score = base_priority * multiplier * (1 + min(savings/100, 2)). -/
def priority_score (t : RecType) (s : Severity) (savings : ℚ) : ℚ :=
  type_priority t * severity_multiplier s * (1 + min (savings / 100) 2)

/-- Descending priority order used by `sorted(..., reverse=True)`. -/
def recGE (a b : RecOut) : Prop := b.priority_score ≤ a.priority_score

instance : DecidableRel recGE :=
  fun a b => inferInstanceAs (Decidable (b.priority_score ≤ a.priority_score))

instance : IsTotal RecOut recGE := ⟨fun a b => le_total b.priority_score a.priority_score⟩

instance : IsTrans RecOut recGE := ⟨fun _ _ _ h1 h2 => le_trans h2 h1⟩

/-- _prioritize_recommendations: score every record, then sort descending by
priority_score (ties keep their incoming order in this model). -/
def prioritize_recommendations (recs : List RecIn) : List RecOut :=
  let scored := recs.map (fun r =>
    { rtype := r.rtype, severity := r.severity,
      potential_savings := r.potential_savings,
      priority_score := priority_score r.rtype r.severity r.potential_savings })
  List.insertionSort recGE scored

/-- C7: every output recommendation's priority_score equals
type_base_priority × severity_multiplier × (1 + min(savings/100, 2)), the
output is sorted descending by priority_score, and for a fixed type and
severity the score is monotonically increasing in potential_savings. -/
theorem C7_priority_scoring (recs : List RecIn) :
    (∀ r ∈ prioritize_recommendations recs,
      r.priority_score = type_priority r.rtype * severity_multiplier r.severity *
        (1 + min (r.potential_savings / 100) 2)) ∧
    List.Pairwise (fun a b : RecOut => b.priority_score ≤ a.priority_score)
      (prioritize_recommendations recs) ∧
    (∀ (t : RecType) (s : Severity) (s1 s2 : ℚ), s1 ≤ s2 →
      priority_score t s s1 ≤ priority_score t s s2) := by
  refine ⟨?_, ?_, ?_⟩
  · intro r hr
    have hmem : r ∈ (recs.map (fun r =>
        ({ rtype := r.rtype, severity := r.severity,
           potential_savings := r.potential_savings,
           priority_score := priority_score r.rtype r.severity r.potential_savings }
          : RecOut))) :=
      (List.perm_insertionSort recGE _).subset hr
    rcases List.mem_map.mp hmem with ⟨r0, _, rfl⟩
    simp [priority_score]
  · have hs := List.sorted_insertionSort recGE (recs.map (fun r =>
      ({ rtype := r.rtype, severity := r.severity,
         potential_savings := r.potential_savings,
         priority_score := priority_score r.rtype r.severity r.potential_savings }
        : RecOut)))
    exact hs.imp (fun h => h)
  · intro t s s1 s2 h12
    have hbase : 0 ≤ type_priority t * severity_multiplier s := by
      have h1 : 0 ≤ type_priority t := by cases t <;> norm_num [type_priority]
      have h2 : 0 ≤ severity_multiplier s := by cases s <;> norm_num [severity_multiplier]
      exact mul_nonneg h1 h2
    have hmin : min (s1 / 100) 2 ≤ min (s2 / 100) 2 :=
      min_le_min (by linarith) le_rfl
    calc priority_score t s s1
        = type_priority t * severity_multiplier s * (1 + min (s1 / 100) 2) := rfl
    _ ≤ type_priority t * severity_multiplier s * (1 + min (s2 / 100) 2) :=
        mul_le_mul_of_nonneg_left (by linarith) hbase
    _ = priority_score t s s2 := rfl

/-- Concrete recommendation list for the C7 witness. -/
def c7recs : List RecIn :=
  [⟨RecType.ad_fatigue, Severity.medium, 0⟩,
   ⟨RecType.budget_allocation_imbalance, Severity.high, 100⟩]

/-- C7 witness: the monotonicity part applied at savings 50 ≤ 100 for a
fixed type and severity, plus a full concrete evaluation of the scorer
(scores 300 and 70, sorted descending). -/
theorem C7_witness :
    priority_score RecType.ad_fatigue Severity.high 50 ≤
      priority_score RecType.ad_fatigue Severity.high 100 ∧
    prioritize_recommendations c7recs =
      [⟨RecType.budget_allocation_imbalance, Severity.high, 100, 300⟩,
       ⟨RecType.ad_fatigue, Severity.medium, 0, 70⟩] := by
  constructor
  · exact (C7_priority_scoring []).2.2 RecType.ad_fatigue Severity.high 50 100 (by norm_num)
  · norm_num [prioritize_recommendations, c7recs, priority_score, type_priority,
      severity_multiplier, List.insertionSort, List.orderedInsert, recGE, min_def]

/- ## Budget allocation analysis: BudgetOptimizer._analyze_budget_allocation
   (src/processing/budget_optimizer.py lines 686-830) -/

/-- One prepared campaign row as seen by `_analyze_budget_allocation`:
its summed spend and the derived ranking metrics, NaN as `none`. -/
structure CampaignRow where
  spend : ℚ
  ctr : Option ℚ
  conversion_rate : Option ℚ
  cpa : Option ℚ
deriving DecidableEq

/-- The ranking metric picked for the quartile sort. -/
inductive PerfMetric
  | cpa
  | conversion_rate
  | ctr
deriving DecidableEq

/-- Sort key for CPA ascending with NaN last (pandas na_position='last'):
NaN maps to the top element. -/
def cpaKey (c : CampaignRow) : WithTop ℚ :=
  match c.cpa with
  | none => ⊤
  | some x => (x : WithTop ℚ)

/-- Sort key for conversion_rate descending with NaN last: NaN maps to the
bottom element and the sort is by descending key. -/
def crKey (c : CampaignRow) : WithBot ℚ :=
  match c.conversion_rate with
  | none => ⊥
  | some x => (x : WithBot ℚ)

/-- Sort key for CTR descending with NaN last. -/
def ctrKey (c : CampaignRow) : WithBot ℚ :=
  match c.ctr with
  | none => ⊥
  | some x => (x : WithBot ℚ)

/-- Row order of `sort_values` for each ranking metric: CPA ascending,
conversion_rate and CTR descending, NaN always last. -/
def metricRel : PerfMetric → CampaignRow → CampaignRow → Prop
  | .cpa, a, b => cpaKey a ≤ cpaKey b
  | .conversion_rate, a, b => crKey b ≤ crKey a
  | .ctr, a, b => ctrKey b ≤ ctrKey a

instance (m : PerfMetric) : DecidableRel (metricRel m) := fun a b =>
  match m with
  | .cpa => inferInstanceAs (Decidable (cpaKey a ≤ cpaKey b))
  | .conversion_rate => inferInstanceAs (Decidable (crKey b ≤ crKey a))
  | .ctr => inferInstanceAs (Decidable (ctrKey b ≤ ctrKey a))

instance (m : PerfMetric) : IsTotal CampaignRow (metricRel m) := by
  cases m with
  | cpa => exact ⟨fun a b => le_total (cpaKey a) (cpaKey b)⟩
  | conversion_rate => exact ⟨fun a b => le_total (crKey b) (crKey a)⟩
  | ctr => exact ⟨fun a b => le_total (ctrKey b) (ctrKey a)⟩

instance (m : PerfMetric) : IsTrans CampaignRow (metricRel m) := by
  cases m with
  | cpa => exact ⟨fun _ _ _ h1 h2 => le_trans h1 h2⟩
  | conversion_rate => exact ⟨fun _ _ _ h1 h2 => le_trans h2 h1⟩
  | ctr => exact ⟨fun _ _ _ h1 h2 => le_trans h2 h1⟩

/-- Ranking-metric choice (lines 713-728): CPA if the cpa column is not
all-NaN, else conversion_rate if not all-NaN, else CTR. -/
def chooseMetric (cs : List CampaignRow) : PerfMetric :=
  if cs.any (fun c => c.cpa.isSome) then .cpa
  else if cs.any (fun c => c.conversion_rate.isSome) then .conversion_rate
  else .ctr

/-- Campaigns sorted by the chosen metric (ties keep their incoming order in
this model). -/
def sortCampaigns (cs : List CampaignRow) : List CampaignRow :=
  List.insertionSort (metricRel (chooseMetric cs)) cs

/-- cumulative_spend_pct column: for the i-th sorted row, the cumulative
spend up to and including it as a percentage of total spend. -/
def prefixPcts (sorted : List CampaignRow) (total : ℚ) : List ℚ :=
  (List.range sorted.length).map (fun i =>
    ((sorted.take (i + 1)).map (·.spend)).sum / total * 100)

/-- Sorted rows paired with their cumulative spend percentage. -/
def quartilePairs (cs : List CampaignRow) : List (CampaignRow × ℚ) :=
  let sorted := sortCampaigns cs
  sorted.zip (prefixPcts sorted ((cs.map (·.spend)).sum))

/-- top_25: rows with cumulative spend percentage ≤ 25. -/
def topPairs (cs : List CampaignRow) : List (CampaignRow × ℚ) :=
  (quartilePairs cs).filter (fun p => p.2 ≤ 25)

/-- mid_high: cumulative spend percentage in (25, 50]. -/
def midHighPairs (cs : List CampaignRow) : List (CampaignRow × ℚ) :=
  (quartilePairs cs).filter (fun p => 25 < p.2 ∧ p.2 ≤ 50)

/-- mid_low: cumulative spend percentage in (50, 75]. -/
def midLowPairs (cs : List CampaignRow) : List (CampaignRow × ℚ) :=
  (quartilePairs cs).filter (fun p => 50 < p.2 ∧ p.2 ≤ 75)

/-- bottom_25: cumulative spend percentage above 75. -/
def bottomPairs (cs : List CampaignRow) : List (CampaignRow × ℚ) :=
  (quartilePairs cs).filter (fun p => 75 < p.2)

/-- Summed spend of a quartile. -/
def spendOf (l : List (CampaignRow × ℚ)) : ℚ :=
  (l.map (fun p => p.1.spend)).sum

/-- spend_pct of the top quartile. -/
def topPct (cs : List CampaignRow) : ℚ :=
  spendOf (topPairs cs) / (cs.map (·.spend)).sum * 100

/-- spend_pct of the bottom quartile. -/
def bottomPct (cs : List CampaignRow) : ℚ :=
  spendOf (bottomPairs cs) / (cs.map (·.spend)).sum * 100

/-- Per-quartile summary of the distribution output. -/
structure QuartileInfo where
  spend : ℚ
  spend_pct : ℚ
  campaign_count : ℕ
deriving DecidableEq

/-- Quartile summary record. -/
def quartileInfoOf (cs : List CampaignRow) (l : List (CampaignRow × ℚ)) : QuartileInfo :=
  ⟨spendOf l, spendOf l / (cs.map (·.spend)).sum * 100, l.length⟩

/-- distribution entry of the result. -/
structure BudgetDistribution where
  total_spend : ℚ
  performance_metric : PerfMetric
  top_25 : QuartileInfo
  mid_high : QuartileInfo
  mid_low : QuartileInfo
  bottom_25 : QuartileInfo
deriving DecidableEq

/-- A budget_allocation_imbalance recommendation (the natural-language text
is presentational and not modelled). -/
structure AllocRec where
  severity : Severity
  bottom_spend_pct : ℚ
  top_spend_pct : ℚ
  potential_savings : ℚ
deriving DecidableEq

/-- Result of `_analyze_budget_allocation`: a distribution (absent on the
empty / zero-spend early returns) and the imbalance recommendations. -/
structure BudgetAllocResult where
  distribution : Option BudgetDistribution
  recommendations : List AllocRec
deriving DecidableEq

/-- _analyze_budget_allocation: early returns for no campaigns or zero
total spend; otherwise the quartile distribution over the sorted cumulative
spend percentages, a high-severity recommendation (50% of bottom-quartile
spend) when bottom_spend_pct > top_spend_pct * 1.5, else a medium one
(30%) when bottom_spend_pct > top_spend_pct * 1.2. -/
def analyze_budget_allocation (cs : List CampaignRow) : BudgetAllocResult :=
  if cs.isEmpty then ⟨none, []⟩
  else if (cs.map (·.spend)).sum = 0 then ⟨none, []⟩
  else
    let dist : BudgetDistribution :=
      { total_spend := (cs.map (·.spend)).sum,
        performance_metric := chooseMetric cs,
        top_25 := quartileInfoOf cs (topPairs cs),
        mid_high := quartileInfoOf cs (midHighPairs cs),
        mid_low := quartileInfoOf cs (midLowPairs cs),
        bottom_25 := quartileInfoOf cs (bottomPairs cs) }
    let recs : List AllocRec :=
      if bottomPct cs > topPct cs * (3/2) then
        [⟨Severity.high, bottomPct cs, topPct cs, spendOf (bottomPairs cs) * (1/2)⟩]
      else if bottomPct cs > topPct cs * (6/5) then
        [⟨Severity.medium, bottomPct cs, topPct cs, spendOf (bottomPairs cs) * (3/10)⟩]
      else []
    ⟨some dist, recs⟩

/-- Summed spend over a cons quartile list. -/
theorem spendOf_cons (x : CampaignRow × ℚ) (l : List (CampaignRow × ℚ)) :
    spendOf (x :: l) = x.1.spend + spendOf l := by
  simp [spendOf]

/-- The four cumulative-percentage buckets partition the spend: every row
falls in exactly one bucket, so the bucket spends add up to the whole. -/
theorem quartile_spend_partition (l : List (CampaignRow × ℚ)) :
    spendOf (l.filter (fun p => p.2 ≤ 25)) +
      spendOf (l.filter (fun p => 25 < p.2 ∧ p.2 ≤ 50)) +
      spendOf (l.filter (fun p => 50 < p.2 ∧ p.2 ≤ 75)) +
      spendOf (l.filter (fun p => 75 < p.2)) = spendOf l := by
  induction l with
  | nil => simp [spendOf]
  | cons x xs ih =>
    rcases le_or_lt x.2 25 with h1 | h1
    · rw [List.filter_cons_of_pos (by simpa using h1),
        List.filter_cons_of_neg (by simp; intro hc; linarith),
        List.filter_cons_of_neg (by simp; intro hc; linarith),
        List.filter_cons_of_neg (by simp; linarith),
        spendOf_cons, spendOf_cons]
      linarith [ih]
    · rcases le_or_lt x.2 50 with h2 | h2
      · rw [List.filter_cons_of_neg (by simp; linarith),
          List.filter_cons_of_pos (by simp; exact ⟨h1, h2⟩),
          List.filter_cons_of_neg (by simp; intro hc; linarith),
          List.filter_cons_of_neg (by simp; linarith),
          spendOf_cons, spendOf_cons]
        linarith [ih]
      · rcases le_or_lt x.2 75 with h3 | h3
        · rw [List.filter_cons_of_neg (by simp; linarith),
            List.filter_cons_of_neg (by simp; intro hc; linarith),
            List.filter_cons_of_pos (by simp; exact ⟨h2, h3⟩),
            List.filter_cons_of_neg (by simp; linarith),
            spendOf_cons, spendOf_cons]
          linarith [ih]
        · rw [List.filter_cons_of_neg (by simp; linarith),
            List.filter_cons_of_neg (by simp; intro hc; linarith),
            List.filter_cons_of_neg (by simp; intro hc; linarith),
            List.filter_cons_of_pos (by simpa using h3),
            spendOf_cons, spendOf_cons]
          linarith [ih]

/-- The sorted campaign list is a permutation of the input. -/
theorem sortCampaigns_perm (cs : List CampaignRow) : (sortCampaigns cs).Perm cs :=
  List.perm_insertionSort _ cs

/-- C8: campaigns are sorted by the best-available ranking metric (CPA
ascending when any CPA is non-NaN, else conversion_rate descending, else
CTR descending), rows are bucketed into four quartiles by cumulative spend
percentage with boundaries at 25/50/75 (so the bucket spends partition the
total, spend-weighted rather than count-weighted), and an imbalance
recommendation is produced exactly when the bottom-quartile spend share
exceeds 1.2x the top-quartile share: high severity with 50% of
bottom-quartile spend as savings above 1.5x, else medium with 30%. -/
theorem C8_budget_allocation (cs : List CampaignRow)
    (h : 0 < (cs.map (·.spend)).sum)
    (hpos : ∀ c ∈ cs, 0 ≤ c.spend) :
    ((sortCampaigns cs).Perm cs ∧
      List.Sorted (metricRel (chooseMetric cs)) (sortCampaigns cs)) ∧
    ((chooseMetric cs = PerfMetric.cpa ↔ ∃ c ∈ cs, c.cpa.isSome = true) ∧
      (chooseMetric cs = PerfMetric.conversion_rate ↔
        (¬ ∃ c ∈ cs, c.cpa.isSome = true) ∧ ∃ c ∈ cs, c.conversion_rate.isSome = true)) ∧
    (spendOf (topPairs cs) + spendOf (midHighPairs cs) + spendOf (midLowPairs cs) +
      spendOf (bottomPairs cs) = (cs.map (·.spend)).sum) ∧
    ((∀ p ∈ topPairs cs, p.2 ≤ 25) ∧
      (∀ p ∈ midHighPairs cs, 25 < p.2 ∧ p.2 ≤ 50) ∧
      (∀ p ∈ midLowPairs cs, 50 < p.2 ∧ p.2 ≤ 75) ∧
      (∀ p ∈ bottomPairs cs, 75 < p.2)) ∧
    ((topPct cs * (3/2) < bottomPct cs →
        (analyze_budget_allocation cs).recommendations =
          [⟨Severity.high, bottomPct cs, topPct cs, spendOf (bottomPairs cs) * (1/2)⟩]) ∧
      (bottomPct cs ≤ topPct cs * (3/2) → topPct cs * (6/5) < bottomPct cs →
        (analyze_budget_allocation cs).recommendations =
          [⟨Severity.medium, bottomPct cs, topPct cs, spendOf (bottomPairs cs) * (3/10)⟩]) ∧
      ((analyze_budget_allocation cs).recommendations ≠ [] ↔
        topPct cs * (6/5) < bottomPct cs)) := by
  have hne : ¬ cs.isEmpty = true := by
    intro hE
    rw [List.isEmpty_iff] at hE
    rw [hE] at h
    simp at h
  have htz : (cs.map (·.spend)).sum ≠ 0 := ne_of_gt h
  have hrec : (analyze_budget_allocation cs).recommendations =
      (if topPct cs * (3/2) < bottomPct cs then
        [⟨Severity.high, bottomPct cs, topPct cs, spendOf (bottomPairs cs) * (1/2)⟩]
      else if topPct cs * (6/5) < bottomPct cs then
        [⟨Severity.medium, bottomPct cs, topPct cs, spendOf (bottomPairs cs) * (3/10)⟩]
      else []) := by
    rw [analyze_budget_allocation, if_neg hne, if_neg htz]
  have hq : ∀ p ∈ quartilePairs cs, 0 ≤ p.1.spend := by
    intro p hp
    have h1 : p.1 ∈ sortCampaigns cs := (List.of_mem_zip hp).1
    exact hpos p.1 ((sortCampaigns_perm cs).subset h1)
  have htop0 : 0 ≤ topPct cs := by
    have h0 : 0 ≤ spendOf (topPairs cs) := by
      apply List.sum_nonneg
      intro x hx
      rcases List.mem_map.mp hx with ⟨p, hp, rfl⟩
      exact hq p (List.mem_filter.mp hp).1
    exact mul_nonneg (div_nonneg h0 h.le) (by norm_num)
  refine ⟨⟨sortCampaigns_perm cs, List.sorted_insertionSort _ cs⟩, ⟨?_, ?_⟩, ?_,
    ⟨?_, ?_, ?_, ?_⟩, ?_, ?_, ?_⟩
  · by_cases h1 : cs.any (fun c => c.cpa.isSome) = true
    · constructor
      · intro _
        exact List.any_eq_true.mp h1
      · intro _
        rw [chooseMetric, if_pos h1]
    · have h1n : ¬ ∃ c ∈ cs, c.cpa.isSome = true := fun hex => h1 (List.any_eq_true.mpr hex)
      constructor
      · intro hcm
        exfalso
        by_cases h2 : cs.any (fun c => c.conversion_rate.isSome) = true
        · rw [chooseMetric, if_neg h1, if_pos h2] at hcm
          exact absurd hcm (by decide)
        · rw [chooseMetric, if_neg h1, if_neg h2] at hcm
          exact absurd hcm (by decide)
      · intro hex
        exact absurd hex h1n
  · by_cases h1 : cs.any (fun c => c.cpa.isSome) = true
    · have hcm : chooseMetric cs = PerfMetric.cpa := by rw [chooseMetric, if_pos h1]
      rw [hcm]
      constructor
      · intro hc
        exact absurd hc (by decide)
      · rintro ⟨hno, _⟩
        exact absurd (List.any_eq_true.mp h1) hno
    · have h1n : ¬ ∃ c ∈ cs, c.cpa.isSome = true := fun hex => h1 (List.any_eq_true.mpr hex)
      by_cases h2 : cs.any (fun c => c.conversion_rate.isSome) = true
      · have hcm : chooseMetric cs = PerfMetric.conversion_rate := by
          rw [chooseMetric, if_neg h1, if_pos h2]
        rw [hcm]
        constructor
        · intro _
          exact ⟨h1n, List.any_eq_true.mp h2⟩
        · intro _
          rfl
      · have hcm : chooseMetric cs = PerfMetric.ctr := by
          rw [chooseMetric, if_neg h1, if_neg h2]
        rw [hcm]
        constructor
        · intro hc
          exact absurd hc (by decide)
        · rintro ⟨_, hex⟩
          exact absurd (List.any_eq_true.mpr hex) h2
  · have hlen : (sortCampaigns cs).length ≤
        (prefixPcts (sortCampaigns cs) ((cs.map (·.spend)).sum)).length := by
      simp [prefixPcts]
    have hfst : (quartilePairs cs).map Prod.fst = sortCampaigns cs :=
      List.map_fst_zip _ _ hlen
    have hq2 : spendOf (quartilePairs cs) = (cs.map (·.spend)).sum := by
      rw [spendOf]
      have hcomp : (quartilePairs cs).map (fun p => p.1.spend) =
          (sortCampaigns cs).map (·.spend) := by
        rw [show (fun p : CampaignRow × ℚ => p.1.spend) =
            (fun c : CampaignRow => c.spend) ∘ Prod.fst from rfl]
        rw [← List.map_map, hfst]
      rw [hcomp]
      exact ((sortCampaigns_perm cs).map (·.spend)).sum_eq
    exact (quartile_spend_partition (quartilePairs cs)).trans hq2
  · intro p hp
    have hx := (List.mem_filter.mp hp).2
    simpa using hx
  · intro p hp
    have hx := (List.mem_filter.mp hp).2
    simpa using hx
  · intro p hp
    have hx := (List.mem_filter.mp hp).2
    simpa using hx
  · intro p hp
    have hx := (List.mem_filter.mp hp).2
    simpa using hx
  · intro hb1
    rw [hrec, if_pos hb1]
  · intro hb1 hb2
    rw [hrec, if_neg (not_lt.mpr hb1), if_pos hb2]
  · by_cases hb1 : topPct cs * (3/2) < bottomPct cs
    · have hb2 : topPct cs * (6/5) < bottomPct cs := by
        have hmul : topPct cs * (6/5) ≤ topPct cs * (3/2) :=
          mul_le_mul_of_nonneg_left (by norm_num) htop0
        exact lt_of_le_of_lt hmul hb1
      rw [hrec, if_pos hb1]
      simp [hb2]
    · by_cases hb2 : topPct cs * (6/5) < bottomPct cs
      · rw [hrec, if_neg hb1, if_pos hb2]
        simp [hb2]
      · rw [hrec, if_neg hb1, if_neg hb2]
        simp [hb2]

/-- Best campaign of the C8 witness account (lowest CPA, spend 10). -/
def c8A : CampaignRow := ⟨10, some 1, some 1, some 1⟩

/-- Second campaign (CPA 2, spend 15). -/
def c8B : CampaignRow := ⟨15, some 1, some 1, some 2⟩

/-- Third campaign (CPA 3, spend 25). -/
def c8C : CampaignRow := ⟨25, some 1, some 1, some 3⟩

/-- Worst campaign (highest CPA, spend 50). -/
def c8D : CampaignRow := ⟨50, some 1, some 1, some 4⟩

/-- The witness account, deliberately out of order. -/
def c8cs : List CampaignRow := [c8D, c8B, c8A, c8C]

/-- C8 witness: on the concrete account the CPA sort yields cumulative
percentages 10/25/50/100, the top quartile holds 25% of spend and the
bottom quartile 50%, and since 50 > 1.5 x 25 the high-severity imbalance
recommendation fires with savings 25 (half the bottom-quartile spend). -/
theorem C8_witness :
    (0 < (c8cs.map (·.spend)).sum) ∧
    (∀ c ∈ c8cs, 0 ≤ c.spend) ∧
    (analyze_budget_allocation c8cs).recommendations =
      [⟨Severity.high, 50, 25, 25⟩] := by
  have htotal : (c8cs.map (·.spend)).sum = 100 := by
    norm_num [c8cs, c8A, c8B, c8C, c8D]
  have h : 0 < (c8cs.map (·.spend)).sum := by
    rw [htotal]
    norm_num
  have hpos : ∀ c ∈ c8cs, 0 ≤ c.spend := by
    intro c hc
    simp [c8cs] at hc
    rcases hc with rfl | rfl | rfl | rfl <;> norm_num [c8A, c8B, c8C, c8D]
  have hcm : chooseMetric c8cs = PerfMetric.cpa := by
    norm_num [chooseMetric, c8cs, c8A, c8B, c8C, c8D]
  have hsort : sortCampaigns c8cs = [c8A, c8B, c8C, c8D] := by
    rw [sortCampaigns, hcm]
    norm_num [c8cs, List.insertionSort, List.orderedInsert,
      metricRel, cpaKey, c8A, c8B, c8C, c8D, WithTop.coe_le_coe,
      show ((1 : WithTop ℚ) ≤ 3) from by exact_mod_cast (show ((1:ℚ) ≤ 3) by norm_num),
      show ((2 : WithTop ℚ) ≤ 3) from by exact_mod_cast (show ((2:ℚ) ≤ 3) by norm_num),
      show ¬((2 : WithTop ℚ) ≤ 1) from by exact_mod_cast (show ¬((2:ℚ) ≤ 1) by norm_num),
      show ¬((4 : WithTop ℚ) ≤ 1) from by exact_mod_cast (show ¬((4:ℚ) ≤ 1) by norm_num),
      show ¬((4 : WithTop ℚ) ≤ 2) from by exact_mod_cast (show ¬((4:ℚ) ≤ 2) by norm_num),
      show ¬((4 : WithTop ℚ) ≤ 3) from by exact_mod_cast (show ¬((4:ℚ) ≤ 3) by norm_num)]
  have hqp : quartilePairs c8cs = [(c8A, 10), (c8B, 25), (c8C, 50), (c8D, 100)] := by
    norm_num [quartilePairs, hsort, htotal, prefixPcts, List.range_succ,
      c8A, c8B, c8C, c8D]
  have htPairs : topPairs c8cs = [(c8A, 10), (c8B, 25)] := by
    norm_num [topPairs, hqp, List.filter_cons, decide_eq_true_eq,
      decide_eq_false_iff_not]
  have hbPairs : bottomPairs c8cs = [(c8D, 100)] := by
    norm_num [bottomPairs, hqp, List.filter_cons, decide_eq_true_eq,
      decide_eq_false_iff_not]
  have hsb : spendOf (bottomPairs c8cs) = 50 := by
    norm_num [hbPairs, spendOf, c8D]
  have hbp : bottomPct c8cs = 50 := by
    rw [bottomPct, hsb, htotal]
    norm_num
  have htp : topPct c8cs = 25 := by
    rw [topPct, htPairs, htotal]
    norm_num [spendOf, c8A, c8B]
  have happ := C8_budget_allocation c8cs h hpos
  have hres := happ.2.2.2.2.1 (by rw [hbp, htp]; norm_num)
  refine ⟨h, hpos, ?_⟩
  rw [hres, hbp, htp, hsb]
  norm_num

/- ## Account overview: EnhancedAdAccountAnalyzer._analyze_account_overview
   (src/analysis/enhanced_analyzer.py lines 251-339) -/

/-- Insights DataFrame columns seen by `_analyze_account_overview`; each
optional field is a column (present with its values, or absent).  The
nonempty-insights guard of the source is assumed (an empty frame returns an
empty dict before any total is computed). -/
structure OverviewDF where
  spend : Option (List ℚ)
  impressions : Option (List ℚ)
  clicks : Option (List ℚ)
  conversions : Option (List ℚ)
  purchases : Option (List ℚ)
  total_conversions : Option (List ℚ)
  revenue : Option (List ℚ)
  conversion_value : Option (List ℚ)
  purchase_value : Option (List ℚ)
deriving DecidableEq

/-- The account overview dict (entity counts omitted: they come from other
frames and no claim touches them). -/
structure AccountOverview where
  total_spend : ℚ
  total_impressions : ℚ
  total_clicks : ℚ
  total_conversions : ℚ
  total_revenue : ℚ
  ctr : ℚ
  cpc : ℚ
  cpm : ℚ
  conversion_rate : ℚ
  cpa : ℚ
  roas : ℚ
deriving DecidableEq

/-- _analyze_account_overview: totals, with total_conversions accumulated by
`+=` over every present column among conversions/purchases/total_conversions
(and total_revenue over revenue/conversion_value/purchase_value), then the
derived rates computed from the combined totals with zero-denominator
branches keeping the initial 0. -/
def analyze_account_overview (df : OverviewDF) : AccountOverview :=
  let total_spend := colSumD df.spend
  let total_impressions := colSumD df.impressions
  let total_clicks := colSumD df.clicks
  let total_conversions :=
    colSumD df.conversions + colSumD df.purchases + colSumD df.total_conversions
  let total_revenue :=
    colSumD df.revenue + colSumD df.conversion_value + colSumD df.purchase_value
  let ctr := if total_impressions > 0 then total_clicks / total_impressions * 100 else 0
  let cpm := if total_impressions > 0 then total_spend / total_impressions * 1000 else 0
  let cpc := if total_clicks > 0 then total_spend / total_clicks else 0
  let conversion_rate :=
    if total_clicks > 0 then
      (if total_conversions > 0 then total_conversions / total_clicks * 100 else 0)
    else 0
  let cpa := if total_conversions > 0 then total_spend / total_conversions else 0
  let roas := if total_spend > 0 ∧ total_revenue > 0 then total_revenue / total_spend else 0
  { total_spend := total_spend, total_impressions := total_impressions,
    total_clicks := total_clicks, total_conversions := total_conversions,
    total_revenue := total_revenue, ctr := ctr, cpc := cpc, cpm := cpm,
    conversion_rate := conversion_rate, cpa := cpa, roas := roas }

/-- The alternative behavior the claim contrasts with (the spec's design
note suggests it): resolve a single conversion column in priority order and
use only its sum. -/
def resolveFirstPresent : List (Option (List ℚ)) → ℚ
  | [] => 0
  | some l :: _ => l.sum
  | none :: rest => resolveFirstPresent rest

/-- Concrete frame with two synonym conversion columns present. -/
def c10df : OverviewDF :=
  { spend := some [10], impressions := some [1000], clicks := some [100],
    conversions := some [2], purchases := some [3], total_conversions := none,
    revenue := none, conversion_value := none, purchase_value := none }

/-- C10: total_conversions adds the sums of every present synonym column
(conversions, purchases, total_conversions), total_revenue likewise over
its synonyms, and the derived conversion_rate and cpa are computed from the
combined totals; on a concrete frame carrying both a conversions and a
purchases column the overview counts 2 + 3 = 5 conversions where a
priority-order resolver would count only 2. -/
theorem C10_overview_synonym_columns_summed (df : OverviewDF) :
    ((analyze_account_overview df).total_conversions =
      colSumD df.conversions + colSumD df.purchases + colSumD df.total_conversions) ∧
    ((analyze_account_overview df).total_revenue =
      colSumD df.revenue + colSumD df.conversion_value + colSumD df.purchase_value) ∧
    ((analyze_account_overview df).cpa =
      if 0 < (analyze_account_overview df).total_conversions then
        (analyze_account_overview df).total_spend /
          (analyze_account_overview df).total_conversions
      else 0) ∧
    ((analyze_account_overview df).conversion_rate =
      if 0 < (analyze_account_overview df).total_clicks ∧
          0 < (analyze_account_overview df).total_conversions then
        (analyze_account_overview df).total_conversions /
          (analyze_account_overview df).total_clicks * 100
      else 0) ∧
    (analyze_account_overview c10df).total_conversions = 5 ∧
    (analyze_account_overview c10df).cpa = 2 ∧
    resolveFirstPresent [c10df.conversions, c10df.purchases, c10df.total_conversions] = 2 := by
  refine ⟨by simp [analyze_account_overview], by simp [analyze_account_overview], ?_, ?_, ?_, ?_, ?_⟩
  · by_cases hc : 0 < colSumD df.conversions + colSumD df.purchases + colSumD df.total_conversions
    · simp [analyze_account_overview, hc]
    · simp [analyze_account_overview, hc]
  · by_cases hk : 0 < colSumD df.clicks
    · by_cases hc : 0 < colSumD df.conversions + colSumD df.purchases + colSumD df.total_conversions
      · simp [analyze_account_overview, hk, hc]
      · simp [analyze_account_overview, hk, hc]
    · by_cases hc : 0 < colSumD df.conversions + colSumD df.purchases + colSumD df.total_conversions
      · simp [analyze_account_overview, hk, hc]
      · simp [analyze_account_overview, hk, hc]
  · norm_num [analyze_account_overview, c10df, colSumD]
  · norm_num [analyze_account_overview, c10df, colSumD]
  · norm_num [resolveFirstPresent, c10df]

/- ## Top-level entry point: EnhancedAdAccountAudit.run_audit
   (src/enhanced_audit.py lines 65-154) -/

/-- The value found under the 'insights' key: a list (its row count is the
only attribute the core later consumes in this model) or some non-list
value. -/
inductive InsightsVal
  | list (rows : ℕ)
  | nonlist
deriving DecidableEq

/-- The fields of a dict-shaped account_data value: whether the 'campaigns'
key exists and what, if anything, sits under 'insights'. -/
structure AccountFields where
  campaigns_present : Bool
  insights : Option InsightsVal
deriving DecidableEq

/-- An arbitrary account_data argument: a dict or any non-dict value. -/
inductive AccountData
  | dict (fields : AccountFields)
  | nondict
deriving DecidableEq

/-- Account data after the validation block (lines 96-105): missing
campaigns/insights keys are defaulted to empty lists and a non-list
insights value is replaced by an empty list, with a logged warning. -/
structure NormalizedAccount where
  insights_rows : ℕ
deriving DecidableEq

/-- The defaulting/normalization performed inside the try block. -/
def normalizeAccount (f : AccountFields) : NormalizedAccount :=
  { insights_rows :=
      match f.insights with
      | some (.list n) => n
      | some .nonlist => 0
      | none => 0 }

/-- The collaborators run_audit drives, as fallible computations: the
analyzer and the report generator (external classes; an exception is an
`Except.error` carrying `str(e)`).  `_cache_analysis_results` catches every
exception internally and so cannot fail the audit; it is not modelled. -/
structure AuditDeps (A : Type) where
  analyze : NormalizedAccount → Except String A
  generate_report : A → Except String String

/-- The audit result dict (timestamp and name fields are presentational and
omitted). -/
structure AuditResult (A : Type) where
  success : Bool
  error : Option String
  analysis_results : Option A
  report_path : Option String
deriving DecidableEq

/-- Message of the ValueError raised for non-dict account data. -/
def invalidAccountMsg : String := "Invalid account data format: expected dict"

/-- The try block of run_audit: validate and normalize the input (the
ValueError for non-dict input is raised inside the try), run the analyzer,
then generate the report under its own inner try so a report failure only
drops the report path. -/
def run_audit_body {A : Type} (deps : AuditDeps A) (account_data : AccountData)
    (generate_report : Bool) : Except String (AuditResult A) :=
  match account_data with
  | .nondict => Except.error invalidAccountMsg
  | .dict f =>
    match deps.analyze (normalizeAccount f) with
    | .error e => Except.error e
    | .ok results =>
      let report_path :=
        if generate_report then
          match deps.generate_report results with
          | .ok p => some p
          | .error _ => none
        else none
      Except.ok { success := true, error := none,
                  analysis_results := some results, report_path := report_path }

/-- run_audit: the try block's result, or on any uncaught exception the
error result with success False and the exception text. -/
def run_audit {A : Type} (deps : AuditDeps A) (account_data : AccountData)
    (generate_report : Bool) : AuditResult A :=
  match run_audit_body deps account_data generate_report with
  | .ok r => r
  | .error e =>
    { success := false, error := some e, analysis_results := none, report_path := none }

/-- C3: run_audit always returns a result with a boolean success flag that
is either true, or false together with an error message; an analyzer
exception is converted into success = false with its message instead of
propagating; a successful analysis yields success = true with the results;
and a non-dict account_data value yields success = false with the
ValueError text (also caught by the same handler). -/
theorem C3_run_audit_result_contract {A : Type} (deps : AuditDeps A)
    (account_data : AccountData) (generate_report : Bool) :
    ((run_audit deps account_data generate_report).success = true ∨
      ((run_audit deps account_data generate_report).success = false ∧
        (run_audit deps account_data generate_report).error.isSome = true)) ∧
    (∀ f e, account_data = AccountData.dict f →
      deps.analyze (normalizeAccount f) = Except.error e →
      (run_audit deps account_data generate_report).success = false ∧
      (run_audit deps account_data generate_report).error = some e) ∧
    (∀ f a, account_data = AccountData.dict f →
      deps.analyze (normalizeAccount f) = Except.ok a →
      (run_audit deps account_data generate_report).success = true ∧
      (run_audit deps account_data generate_report).analysis_results = some a) ∧
    (account_data = AccountData.nondict →
      (run_audit deps account_data generate_report).success = false ∧
      (run_audit deps account_data generate_report).error = some invalidAccountMsg) := by
  refine ⟨?_, ?_, ?_, ?_⟩
  · cases account_data with
    | nondict => simp [run_audit, run_audit_body]
    | dict f =>
      cases ha : deps.analyze (normalizeAccount f) with
      | error e => simp [run_audit, run_audit_body, ha]
      | ok a => simp [run_audit, run_audit_body, ha]
  · intro f e hd ha
    subst hd
    simp [run_audit, run_audit_body, ha]
  · intro f a hd ha
    subst hd
    simp [run_audit, run_audit_body, ha]
  · intro hd
    subst hd
    simp [run_audit, run_audit_body]

/-- Analyzer stub that succeeds with the value 7 while report generation
fails (the audit must still succeed, only without a report). -/
def c3depsOk : AuditDeps ℕ :=
  { analyze := fun _ => Except.ok 7,
    generate_report := fun _ => Except.error invalidAccountMsg }

/-- Message of the witness's failing analyzer. -/
def c3errMsg : String := "analysis failed"

/-- Analyzer stub that raises. -/
def c3depsFail : AuditDeps ℕ :=
  { analyze := fun _ => Except.error c3errMsg,
    generate_report := fun _ => Except.error c3errMsg }

/-- A dict-shaped account_data value with a missing insights key. -/
def c3fields : AccountFields := ⟨true, none⟩

/-- C3 witness: the contract applied to a succeeding analyzer, a raising
analyzer, and a non-dict input. -/
theorem C3_witness :
    ((run_audit c3depsOk (AccountData.dict c3fields) true).success = true ∧
      (run_audit c3depsOk (AccountData.dict c3fields) true).analysis_results = some 7) ∧
    ((run_audit c3depsFail (AccountData.dict c3fields) true).success = false ∧
      (run_audit c3depsFail (AccountData.dict c3fields) true).error = some c3errMsg) ∧
    ((run_audit c3depsOk AccountData.nondict true).success = false ∧
      (run_audit c3depsOk AccountData.nondict true).error = some invalidAccountMsg) := by
  refine ⟨?_, ?_, ?_⟩
  · exact (C3_run_audit_result_contract c3depsOk (AccountData.dict c3fields) true).2.2.1
      c3fields 7 rfl rfl
  · exact (C3_run_audit_result_contract c3depsFail (AccountData.dict c3fields) true).2.1
      c3fields c3errMsg rfl rfl
  · exact (C3_run_audit_result_contract c3depsOk AccountData.nondict true).2.2.2 rfl
